import Mathlib

/-!
Shallow embedding of `main.py` (uPB, a command-line JSON browser).

The HTTP layer is abstracted as oracles: a JSON fetch oracle
`String → Except String Json` and a text fetch oracle
`String → Except String String`, matching the interface that the helpers
`_http_get_json` / `_http_get_text` present to the adapters (the argument is
the URL; `Except.error msg` models a raised exception whose `str()` is `msg`).
Python string operations are re-implemented structurally over `List Char`
so that every definition evaluates by kernel reduction.  JSON numbers are
modelled as `Int`: float payloads (and Python float formatting) are outside
the embedding; every claim only exercises integer-valued JSON numbers.
-/

namespace UPB

/-- Characters stripped by Python `str.strip()` with no argument. -/
def wsChar (c : Char) : Bool :=
  c == ' ' || c == '\t' || c == '\n' || c == '\r' || c == '\x0b' || c == '\x0c'

/-- Python `str.strip()` (strip whitespace from both ends). -/
def pyStrip (s : String) : String :=
  String.mk (((s.data.dropWhile wsChar).reverse.dropWhile wsChar).reverse)

/-- Python `str.strip(ch)` for a single-character argument. -/
def pyStripChar (sep : Char) (s : String) : String :=
  String.mk (((s.data.dropWhile (· == sep)).reverse.dropWhile (· == sep)).reverse)

/-- Python `str.startswith(pre)`. -/
def pyStartsWith (s pre : String) : Bool :=
  pre.data.isPrefixOf s.data

/-- Python character-slice `s[n:]`. -/
def pyDropN (s : String) (n : Nat) : String :=
  String.mk (s.data.drop n)

/-- Python `str.split(sep)` for a one-character separator (keeps empty parts). -/
def splitOnCharAux (sep : Char) : List Char → List Char → List String
  | [], acc => [String.mk acc.reverse]
  | c :: rest, acc =>
    if c == sep then String.mk acc.reverse :: splitOnCharAux sep rest []
    else splitOnCharAux sep rest (c :: acc)

/-- Python `str.split(sep)` for a one-character separator. -/
def splitOnChar (sep : Char) (s : String) : List String :=
  splitOnCharAux sep s.data []

/-- Python `str.split()` (split on whitespace runs, dropping empty parts). -/
def pySplitAux : List Char → List Char → List String
  | [], acc => if acc.isEmpty then [] else [String.mk acc.reverse]
  | c :: rest, acc =>
    if wsChar c then
      if acc.isEmpty then pySplitAux rest []
      else String.mk acc.reverse :: pySplitAux rest []
    else pySplitAux rest (c :: acc)

/-- Python `str.split()` with no arguments. -/
def pySplit (s : String) : List String :=
  pySplitAux s.data []

/-- Python `str.split(maxsplit=1)`: at most one split on a whitespace run. -/
def pySplitMax1 (s : String) : List String :=
  let l := s.data.dropWhile wsChar
  if l.isEmpty then []
  else
    let tok := String.mk (l.takeWhile (fun c => !(wsChar c)))
    let rest := (l.dropWhile (fun c => !(wsChar c))).dropWhile wsChar
    if rest.isEmpty then [tok] else [tok, String.mk rest]

/-- Python `str.splitlines()` (here over `\n`, `\r` and `\r\n`). -/
def pySplitlinesAux : List Char → List Char → List String
  | [], acc => if acc.isEmpty then [] else [String.mk acc.reverse]
  | '\r' :: '\n' :: rest, acc => String.mk acc.reverse :: pySplitlinesAux rest []
  | '\r' :: rest, acc => String.mk acc.reverse :: pySplitlinesAux rest []
  | '\n' :: rest, acc => String.mk acc.reverse :: pySplitlinesAux rest []
  | c :: rest, acc => pySplitlinesAux rest (c :: acc)

/-- Python `str.splitlines()`. -/
def pySplitlines (s : String) : List String :=
  pySplitlinesAux s.data []

/-- Python `str.replace(a, b)` for single-character `a` and `b`. -/
def pyReplaceChar (a b : Char) (s : String) : String :=
  String.mk (s.data.map (fun c => if c == a then b else c))

/-- ASCII lower-casing of one character (Python `str.lower` on ASCII input). -/
def chLower (c : Char) : Char :=
  if decide ('A' ≤ c) && decide (c ≤ 'Z') then Char.ofNat (c.toNat + 32) else c

/-- ASCII upper-casing of one character (Python `str.upper` on ASCII input). -/
def chUpper (c : Char) : Char :=
  if decide ('a' ≤ c) && decide (c ≤ 'z') then Char.ofNat (c.toNat - 32) else c

/-- Python `str.lower()` (ASCII). -/
def pyLower (s : String) : String :=
  String.mk (s.data.map chLower)

/-- Python `str.upper()` (ASCII). -/
def pyUpper (s : String) : String :=
  String.mk (s.data.map chUpper)

/-- One ASCII decimal digit test (Python `str.isdigit` on ASCII input). -/
def chIsDigit (c : Char) : Bool :=
  decide ('0' ≤ c) && decide (c ≤ '9')

/-- Python `str.isdigit()` (ASCII): non-empty and all digits. -/
def pyIsDigit (s : String) : Bool :=
  !s.data.isEmpty && s.data.all chIsDigit

/-- Value of a digit string (Python `int(s)` for a string of ASCII digits). -/
def digitsVal : List Char → Nat → Nat
  | [], acc => acc
  | c :: rest, acc => digitsVal rest (acc * 10 + (c.toNat - 48))

/-- Python `int(s)` for a string that passed `isdigit`. -/
def pyParseNat (s : String) : Nat :=
  digitsVal s.data 0

/-- Upper-case hexadecimal digits of a natural number. -/
def hexUpper (n : Nat) : String :=
  String.mk ((Nat.toDigits 16 n).map Char.toUpper)

/-- Python format `"%{:02X}".format(ord(ch))`: percent escape of one character. -/
def pctEscape (c : Char) : String :=
  "%" ++ (if (hexUpper c.toNat).data.length < 2 then "0" ++ hexUpper c.toNat else hexUpper c.toNat)

/-! ## JSON values and Python-style dynamic access -/

/-- Decoded JSON values.  Numbers are modelled as `Int` (see header). -/
inductive Json where
  | null
  | bool (b : Bool)
  | num (n : Int)
  | str (s : String)
  | arr (xs : List Json)
  | obj (fields : List (String × Json))

/-- First value bound to a key in a decoded object (decoded dicts have unique keys). -/
def lookupField : List (String × Json) → String → Option Json
  | [], _ => none
  | (k, v) :: fs, key => if k == key then some v else lookupField fs key

/-- Python `str()` / `repr()` of a decoded JSON value.  The fuel argument
bounds nesting depth (any payload of depth below the fuel renders exactly);
the `asRepr` flag selects `repr` (strings quoted), used inside containers. -/
def pyRender : Nat → Bool → Json → String
  | _, _, Json.null => "None"
  | _, _, Json.bool b => if b then "True" else "False"
  | _, _, Json.num n => toString n
  | _, asRepr, Json.str s => if asRepr then "\x27" ++ s ++ "\x27" else s
  | 0, _, Json.arr _ => "[...]"
  | 0, _, Json.obj _ => "\x7b...\x7d"
  | f + 1, _, Json.arr xs =>
    "[" ++ String.intercalate ", " (xs.map (fun x => pyRender f true x)) ++ "]"
  | f + 1, _, Json.obj fs =>
    "\x7b" ++
      String.intercalate ", "
        (fs.map (fun kv => "\x27" ++ kv.fst ++ "\x27: " ++ pyRender f true kv.snd)) ++
      "\x7d"

/-- Python `str(v)` of a decoded JSON value (as used by f-string interpolation). -/
def pyStr (j : Json) : String :=
  pyRender 1000 false j

/-- Python truthiness of a decoded JSON value. -/
def Json.truthy : Json → Bool
  | Json.null => false
  | Json.bool b => b
  | Json.num n => !(n == 0)
  | Json.str s => !(s == "")
  | Json.arr xs => !xs.isEmpty
  | Json.obj fs => !fs.isEmpty

/-- Python `v is None` (decoded JSON null is Python `None`). -/
def Json.isNone : Json → Bool
  | Json.null => true
  | _ => false

/-- Python `d.get(key)` as an `Option`: raises (`Except.error`) unless the
receiver is a dict; `none` models an absent key. -/
def Json.dget : Json → String → Except String (Option Json)
  | Json.obj fs, key => Except.ok (lookupField fs key)
  | _, _ => Except.error "AttributeError: object has no attribute get"

/-- Python `d.get(key, default)`: the bound value if present, else `default`. -/
def Json.getJD (j : Json) (key : String) (d : Json) : Except String Json :=
  (j.dget key).map (fun o => o.getD d)

/-- Python `d.get(key)`: the bound value if present, else `None`. -/
def Json.pyGet (j : Json) (key : String) : Except String Json :=
  (j.dget key).map (fun o => o.getD Json.null)

/-- Python `d.get(key) or default` (truthiness-based fallback). -/
def Json.getOr (j : Json) (key : String) (d : Json) : Except String Json :=
  (j.pyGet key).map (fun v => if v.truthy then v else d)

/-- Python subscript `x[0]`: first element of a list, first character of a
string; raises on everything else (and on an empty list). -/
def Json.sub0 : Json → Except String Json
  | Json.arr (x :: _) => Except.ok x
  | Json.arr [] => Except.error "IndexError: list index out of range"
  | Json.str s =>
    match s.data with
    | [] => Except.error "IndexError: string index out of range"
    | c :: _ => Except.ok (Json.str (String.singleton c))
  | _ => Except.error "TypeError: object is not subscriptable"

/-- Python iteration `for x in v`: list elements, string characters, dict keys;
raises on scalars. -/
def Json.pyIter : Json → Except String (List Json)
  | Json.arr xs => Except.ok xs
  | Json.str s => Except.ok (s.data.map (fun c => Json.str (String.singleton c)))
  | Json.obj fs => Except.ok (fs.map (fun kv => Json.str kv.fst))
  | _ => Except.error "TypeError: object is not iterable"

/-- Python slice `x[:n]`: list and string prefixes; raises on dicts and scalars. -/
def Json.pySliceTo : Json → Nat → Except String Json
  | Json.arr xs, n => Except.ok (Json.arr (xs.take n))
  | Json.str s, n => Except.ok (Json.str (String.mk (s.data.take n)))
  | _, _ => Except.error "TypeError: object is not subscriptable"

/-! ## URL query encoder and HTTP fetch helpers (`main.py` lines 40-125) -/

/-- Safe character set of the in-module fallback encoder in `_urlencode_plus`. -/
def urlSafeChars : List Char :=
  "ABCDEFGHIJKLMNOPQRSTUVWXYZabcdefghijklmnopqrstuvwxyz0123456789_.-".data

/-- URL-encode a query string using `+` for spaces (`main.py` lines 40-62).
The embedded definition is the module fallback encoder; the stdlib
`quote_plus` path delegates outside this repository and agrees with the
fallback on every claim input. -/
def _urlencode_plus (query : String) : String :=
  String.join (query.data.map (fun ch =>
    if ch == ' ' then "+"
    else if urlSafeChars.contains ch then String.singleton ch
    else pctEscape ch))

/-- Safe-character test of the fallback title encoder in `fetch_wiki_summary`. -/
def wikiSafe (ch : Char) : Bool :=
  (decide ('0' ≤ ch) && decide (ch ≤ '9')) ||
  (decide ('A' ≤ ch) && decide (ch ≤ 'Z')) ||
  (decide ('a' ≤ ch) && decide (ch ≤ 'z')) ||
  ch == '_' || ch == '.' || ch == '-'

/-- Percent-encoding of a title path (`main.py` lines 168-177, fallback branch
of `quote(title_path, safe="")`). -/
def wiki_quote (s : String) : String :=
  String.join (s.data.map (fun ch =>
    if wikiSafe ch then String.singleton ch else pctEscape ch))

/-- Model of a received HTTP response: `getattr(response, "status_code", 200)`
yields 200 when the attribute is absent (`none`); `jsonBody` models
`response.json()` (which may raise), `textBody` models `response.text`
(which may raise), and `content` models the decoded `response.content`
fallback. -/
structure HttpResponse where
  status_code : Option Nat
  jsonBody : Except String Json
  textBody : Except String String
  content : String

/-- Effective status code: `getattr(response, "status_code", 200)`. -/
def http_status (r : HttpResponse) : Nat :=
  r.status_code.getD 200

/-- GET a URL and return parsed JSON (`main.py` lines 65-91).  The transport
oracle models `requests.get`: `Except.error` is a raised transport exception.
A truthy status of at least 400 raises `RuntimeError(f"HTTP {status_code} for
URL: {url}")`; otherwise the parsed JSON (or the parse failure) is returned. -/
def _http_get_json (transport : String → Except String HttpResponse)
    (url : String) : Except String Json :=
  match transport url with
  | Except.error e => Except.error e
  | Except.ok response =>
    if http_status response ≠ 0 ∧ 400 ≤ http_status response then
      Except.error ("HTTP " ++ toString (http_status response) ++ " for URL: " ++ url)
    else response.jsonBody

/-- GET a URL and return the text body (`main.py` lines 94-125).  On a
`response.text` failure the decoded `response.content` is returned instead. -/
def _http_get_text (transport : String → Except String HttpResponse)
    (url : String) : Except String String :=
  match transport url with
  | Except.error e => Except.error e
  | Except.ok response =>
    if http_status response ≠ 0 ∧ 400 ≤ http_status response then
      Except.error ("HTTP " ++ toString (http_status response) ++ " for URL: " ++ url)
    else
      match response.textBody with
      | Except.ok t => Except.ok t
      | Except.error _ => Except.ok response.content

/-! ## Service adapters (`main.py` lines 165-447)

Each adapter takes the JSON fetch oracle (the interface of `_http_get_json`)
and, for the stock adapter, the text fetch oracle (the interface of
`_http_get_text`).  The body of each Python `try:` block is a computation in
`Except String`; the `except Exception` clause is the surrounding `match`. -/

/-- Wikipedia summary (`main.py` lines 165-184). -/
def fetch_wiki_summary (fj : String → Except String Json) (query : String) :
    String × String :=
  let title_path := wiki_quote (pyReplaceChar ' ' '_' (pyStrip query))
  let url := "https://en.wikipedia.org/api/rest_v1/page/summary/" ++ title_path
  match (do
      let data ← fj url
      let t ← data.getJD "title" (Json.str "No Title")
      let e ← data.getJD "extract" (Json.str "No content.")
      pure (pyStr t, pyStr e) : Except String (String × String)) with
  | Except.ok r => r
  | Except.error e => ("Error", "Could not fetch data: " ++ e)

/-- DuckDuckGo instant answer (`main.py` lines 188-210). -/
def fetch_ddg_result (fj : String → Except String Json) (query : String) :
    String × String :=
  let base_url := "https://api.duckduckgo.com/"
  let params := "?q=" ++ _urlencode_plus query ++ "&format=json&no_html=1&no_redirect=1"
  match (do
      let data ← fj (base_url ++ params)
      let title ← data.getJD "Heading" (Json.str "DuckDuckGo Search")
      let summary ← data.getJD "AbstractText" (Json.str "")
      if summary.truthy then
        pure (pyStr title, pyStr summary)
      else do
        let related ← data.getOr "RelatedTopics" (Json.arr [])
        if related.truthy then do
          let first ← related.sub0
          match first with
          | Json.obj _ => do
            let tv ← first.getJD "Text" (Json.str "No summary.")
            pure (pyStr title, pyStr (if tv.truthy then tv else Json.str "No summary."))
          | _ => pure (pyStr title, "No summary.")
        else
          pure (pyStr title, "No direct answer found.")
      : Except String (String × String)) with
  | Except.ok r => r
  | Except.error e => ("Error", "DuckDuckGo fetch failed: " ++ e)

/-- URL selection of `fetch_xkcd` (`main.py` line 215): the comic number is
tested for truthiness, so both `None` and `0` select the latest-comic
endpoint. -/
def xkcd_url : Option Nat → String
  | some n => if n ≠ 0 then "https://xkcd.com/" ++ toString n ++ "/info.0.json"
              else "https://xkcd.com/info.0.json"
  | none => "https://xkcd.com/info.0.json"

/-- XKCD comic fetcher (`main.py` lines 214-223). -/
def fetch_xkcd (fj : String → Except String Json)
    (comic_number : Option Nat := none) : String × String :=
  match (do
      let data ← fj (xkcd_url comic_number)
      let num ← data.getJD "num" (Json.str "???")
      let title ← data.getJD "title" (Json.str "No title")
      let alt ← data.getJD "alt" (Json.str "")
      pure ("#" ++ pyStr num ++ " - " ++ pyStr title, pyStr alt)
      : Except String (String × String)) with
  | Except.ok r => r
  | Except.error e => ("Error", "XKCD fetch failed: " ++ e)

/-- Hacker News base URL (`main.py` line 228). -/
def hn_base_url : String := "https://hacker-news.firebaseio.com/v0"

/-- Index endpoint of `fetch_hn_top`. -/
def hn_top_url : String := hn_base_url ++ "/topstories.json"

/-- Item endpoint of `fetch_hn_top` (`f"{base_url}/item/{story_id}.json"`). -/
def hn_item_url (story_id : Json) : String :=
  hn_base_url ++ "/item/" ++ pyStr story_id ++ ".json"

/-- Body of the per-story loop of `fetch_hn_top` (`main.py` lines 233-240):
a failing item fetch or extraction is skipped (`continue`), modelled as
`none`. -/
def hn_item_line (fj : String → Except String Json) (story_id : Json) :
    Option String :=
  match (do
      let item ← fj (hn_item_url story_id)
      let title ← item.getJD "title" (Json.str "No title")
      let url ← item.getJD "url" (Json.str "No URL")
      pure ("- " ++ pyStr title ++ "\n  " ++ pyStr url) : Except String String) with
  | Except.ok line => some line
  | Except.error _ => none

/-- Joining rule of `fetch_hn_top` (`main.py` line 242). -/
def hn_join (stories : List String) : String :=
  if !stories.isEmpty then String.intercalate "\n\n" stories else "No stories."

/-- Hacker News top stories (`main.py` lines 227-244).  Returns a single
string, not a title/body pair; the outer failure branch returns
`"Error fetching Hacker News: " + str(exc)`. -/
def fetch_hn_top (fj : String → Except String Json) (n : Nat := 5) : String :=
  match (do
      let ids ← fj hn_top_url
      let sliced ← ids.pySliceTo n
      sliced.pyIter : Except String (List Json)) with
  | Except.error e => "Error fetching Hacker News: " ++ e
  | Except.ok top_ids => hn_join (top_ids.filterMap (hn_item_line fj))

/-- Random quote (`main.py` lines 248-256). -/
def fetch_quote (fj : String → Except String Json) : String × String :=
  match (do
      let data ← fj "https://api.quotable.io/random"
      let content ← data.getJD "content" (Json.str "No quote.")
      let author ← data.getJD "author" (Json.str "Unknown")
      pure ("Quote by " ++ pyStr author, pyStr content)
      : Except String (String × String)) with
  | Except.ok r => r
  | Except.error e => ("Error", "Quote fetch failed: " ++ e)

/-- Random dad joke (`main.py` lines 259-270).  The Accept/User-Agent headers
do not affect the modelled value and are absorbed into the oracle. -/
def fetch_joke (fj : String → Except String Json) : String × String :=
  match (do
      let data ← fj "https://icanhazdadjoke.com/"
      let joke ← data.getJD "joke" (Json.str "No joke found.")
      pure ("Dad Joke", pyStr joke) : Except String (String × String)) with
  | Except.ok r => r
  | Except.error e => ("Error", "Joke fetch failed: " ++ e)

/-- Current weather via geocoding plus forecast (`main.py` lines 273-297). -/
def fetch_weather (fj : String → Except String Json) (place : String) :
    String × String :=
  match (do
      let q := _urlencode_plus place
      let geo ← fj ("https://geocoding-api.open-meteo.com/v1/search?name=" ++ q ++ "&count=1")
      let results ← geo.getOr "results" (Json.arr [])
      if !results.truthy then
        pure ("Weather", "No location found for \x27" ++ place ++ "\x27.")
      else do
        let r0 ← results.sub0
        let lat ← r0.pyGet "latitude"
        let lon ← r0.pyGet "longitude"
        let name ← r0.getJD "name" (Json.str place)
        let country ← r0.getJD "country" (Json.str "")
        let forecast ← fj ("https://api.open-meteo.com/v1/forecast?latitude=" ++ pyStr lat ++
          "&longitude=" ++ pyStr lon ++ "&current_weather=true")
        let cw ← forecast.getOr "current_weather" (Json.obj [])
        let temp ← cw.pyGet "temperature"
        let wind ← cw.pyGet "windspeed"
        let code ← cw.pyGet "weathercode"
        let desc := "Temp: " ++ pyStr temp ++ "°C, Wind: " ++ pyStr wind ++
          " km/h, Code: " ++ pyStr code
        let title := pyStripChar ','
          (pyStrip ("Weather - " ++ pyStr name ++ ", " ++ pyStr country))
        pure (title, desc)
      : Except String (String × String)) with
  | Except.ok r => r
  | Except.error e => ("Error", "Weather fetch failed: " ++ e)

/-- Dictionary definition (`main.py` lines 300-316). -/
def fetch_define (fj : String → Except String Json) (word : String) :
    String × String :=
  let w := pyStrip word
  match (do
      let data ← fj ("https://api.dictionaryapi.dev/api/v2/entries/en/" ++ _urlencode_plus w)
      match data with
      | Json.arr (entry :: _) => do
        let word_out ← entry.getJD "word" (Json.str w)
        let meanings ← entry.getOr "meanings" (Json.arr [])
        if meanings.truthy then do
          let m0 ← meanings.sub0
          let defs ← m0.getOr "definitions" (Json.arr [])
          if defs.truthy then do
            let d0 ← defs.sub0
            let definition ← d0.getJD "definition" (Json.str "No definition.")
            pure ("Define - " ++ pyStr word_out, pyStr definition)
          else pure ("Define - " ++ w, "No definition found.")
        else pure ("Define - " ++ w, "No definition found.")
      | _ => pure ("Define - " ++ w, "No definition found.")
      : Except String (String × String)) with
  | Except.ok r => r
  | Except.error e => ("Error", "Definition fetch failed: " ++ e)

/-- Known-alias table for crypto symbols (`main.py` lines 319-327). -/
def _COINGECKO_IDS : List (String × String) :=
  [("btc", "bitcoin"), ("eth", "ethereum"), ("sol", "solana"), ("ada", "cardano"),
   ("doge", "dogecoin"), ("xrp", "ripple"), ("matic", "polygon")]

/-- Lookup in the alias table. -/
def aliasLookup : List (String × String) → String → Option String
  | [], _ => none
  | (k, v) :: rest, key => if k == key then some v else aliasLookup rest key

/-- Token list of `fetch_prices`: commas become spaces, whitespace split,
lower-cased; empty input defaults to `["btc", "eth"]`. -/
def price_tokens (symbols : String) : List String :=
  let ts := ((pySplit (pyReplaceChar ',' ' ' symbols)).filter
      (fun t => !(pyStrip t == ""))).map pyLower
  if ts.isEmpty then ["btc", "eth"] else ts

/-- Per-token provider identifiers (`_COINGECKO_IDS.get(t) or t`). -/
def price_ids (tokens : List String) : List String :=
  tokens.map (fun t =>
    match aliasLookup _COINGECKO_IDS t with
    | some v => if !(v == "") then v else t
    | none => t)

/-- Line accumulation of `fetch_prices` (`main.py` lines 341-345): one line per
token whose price is present (`is not None`); others are skipped. -/
def priceLines (data : Json) : List (String × String) → Except String (List String)
  | [] => Except.ok []
  | (t, id_) :: rest => do
    let d ← data.getJD id_ (Json.obj [])
    let price ← d.pyGet "usd"
    let tail ← priceLines data rest
    if !price.isNone then
      pure ((pyUpper t ++ ": $" ++ pyStr price) :: tail)
    else pure tail

/-- Crypto prices via CoinGecko (`main.py` lines 330-348). -/
def fetch_prices (fj : String → Except String Json) (symbols : String) :
    String × String :=
  let tokens := price_tokens symbols
  let ids := price_ids tokens
  let ids_param := String.intercalate "," ids
  match (do
      let data ← fj ("https://api.coingecko.com/api/v3/simple/price?ids=" ++
        _urlencode_plus ids_param ++ "&vs_currencies=usd")
      priceLines data (tokens.zip ids) : Except String (List String)) with
  | Except.ok lines =>
    ("Prices (USD)", if !lines.isEmpty then String.intercalate "\n" lines
                     else "No prices found.")
  | Except.error e => ("Error", "Price fetch failed: " ++ e)

/-- Python `f"{x:+.2f}"` for an integer value (float payloads are outside the
embedding): explicit sign and two decimal places. -/
def fmtPlus2 (x : Int) : String :=
  (if x < 0 then "-" else "+") ++ toString x.natAbs ++ ".00"

/-- The local `fmt` of `fetch_stocks` (`main.py` lines 378-379): numbers (and
booleans, which Python treats as ints) are formatted, everything else is
`"n/a"`. -/
def stockFmt : Json → String
  | Json.num n => fmtPlus2 n
  | Json.bool b => fmtPlus2 (if b then 1 else 0)
  | _ => "n/a"

/-- Token list of `fetch_stocks` (`main.py` lines 356-358): upper-cased,
empty input defaults to `["AAPL", "MSFT"]`. -/
def stocks_tokens (symbols : String) : List String :=
  let ts := ((pySplit (pyReplaceChar ',' ' ' symbols)).filter
      (fun t => !(pyStrip t == ""))).map pyUpper
  if ts.isEmpty then ["AAPL", "MSFT"] else ts

/-- Comma-joined symbol parameter of `fetch_stocks`. -/
def stocks_param (symbols : String) : String :=
  String.intercalate "," (stocks_tokens symbols)

/-- Primary (Yahoo JSON) quote URL of `fetch_stocks`. -/
def stocks_url (symbols_param : String) : String :=
  "https://query1.finance.yahoo.com/v7/finance/quote?symbols=" ++
    _urlencode_plus symbols_param

/-- Per-quote line accumulation of the primary branch (`main.py` lines
369-380): a quote with no `regularMarketPrice` is skipped. -/
def stocksLines : List Json → Except String (List String)
  | [] => Except.ok []
  | q :: rest => do
    let sym ← q.getJD "symbol" (Json.str "?")
    let price ← q.pyGet "regularMarketPrice"
    let change ← q.pyGet "regularMarketChange"
    let percent ← q.pyGet "regularMarketChangePercent"
    let currency ← q.getJD "currency" (Json.str "")
    let tail ← stocksLines rest
    if price.isNone then pure tail
    else
      pure ((pyStr sym ++ ": " ++ pyStr price ++ " " ++ pyStr currency ++ " (" ++
        stockFmt change ++ ", " ++ stockFmt percent ++ "%)") :: tail)

/-- Stripped comma-separated fields of one CSV line (`main.py` line 395). -/
def stooq_parts (line : String) : List String :=
  (splitOnChar ',' line).map pyStrip

/-- Body of the per-line CSV loop of `fetch_stocks` (`main.py` lines 394-403):
header or no-data lines, lines with fewer than 8 fields, and lines whose close
field is `"N/D"`, `"-"` or empty are skipped. -/
def stooq_parse_line (line : String) : Option String :=
  if (stooq_parts line).isEmpty ||
      (pyLower ((stooq_parts line).headD "") == "symbol") ||
      (pyLower ((stooq_parts line).headD "") == "no data") then none
  else if (stooq_parts line).length < 8 then none
  else if ((stooq_parts line).getD 6 "" == "N/D") ||
      ((stooq_parts line).getD 6 "" == "-") ||
      ((stooq_parts line).getD 6 "" == "") then none
  else some ((stooq_parts line).getD 0 "" ++ ": " ++ (stooq_parts line).getD 6 "" ++
    " (O:" ++ (stooq_parts line).getD 3 "" ++ " H:" ++ (stooq_parts line).getD 4 "" ++
    " L:" ++ (stooq_parts line).getD 5 "" ++ ")")

/-- Fallback (Stooq CSV) branch of `fetch_stocks` (`main.py` lines 388-406). -/
def stocks_fallback (ft : String → Except String String) (symbols_param : String) :
    String × String :=
  match (do
      let csv ← ft ("https://stooq.com/q/l/?s=" ++ _urlencode_plus symbols_param ++
        "&f=sd2t2ohlcvn&h=e")
      pure ((pySplitlines csv).filterMap stooq_parse_line)
      : Except String (List String)) with
  | Except.ok lines_out =>
    ("Stocks", if !lines_out.isEmpty then String.intercalate "\n" lines_out
               else "No stock data found.")
  | Except.error e => ("Error", "Stock fetch failed: " ++ e)

/-- Stock quotes (`main.py` lines 351-406): Yahoo JSON first; when that
raises or produces no lines, fall back to the Stooq CSV provider. -/
def fetch_stocks (fj : String → Except String Json)
    (ft : String → Except String String) (symbols : String) : String × String :=
  match (do
      let data ← fj (stocks_url (stocks_param symbols))
      let qr ← data.getOr "quoteResponse" (Json.obj [])
      let results ← qr.getOr "result" (Json.arr [])
      let qs ← results.pyIter
      stocksLines qs : Except String (List String)) with
  | Except.ok lines =>
    if !lines.isEmpty then ("Stocks", String.intercalate "\n" lines)
    else stocks_fallback ft (stocks_param symbols)
  | Except.error _ => stocks_fallback ft (stocks_param symbols)

/-- World time (`main.py` lines 409-422): zone argument tested for truthiness
(absent or empty selects the IP-based endpoint). -/
def fetch_time (fj : String → Except String Json) (zone : Option String := none) :
    String × String :=
  match (do
      let url := match zone with
        | some z => if !(z == "") then "https://worldtimeapi.org/api/timezone/" ++ z
                    else "https://worldtimeapi.org/api/ip"
        | none => "https://worldtimeapi.org/api/ip"
      let data ← fj url
      let dt ← data.getJD "datetime" (Json.str "")
      let tz ← data.getJD "timezone" (Json.str (zone.getD ""))
      let dtS ← (match dt with
        | Json.str s => Except.ok s
        | _ => Except.error "AttributeError: object has no attribute replace")
      let nice := (splitOnChar '.' (pyReplaceChar 'T' ' ' dtS)).headD ""
      pure ("Time - " ++ pyStr tz, nice) : Except String (String × String)) with
  | Except.ok r => r
  | Except.error e => ("Error", "Time fetch failed: " ++ e)

/-- Public IP lookup (`main.py` lines 425-430). -/
def fetch_ip (fj : String → Except String Json) : String × String :=
  match (do
      let data ← fj "https://api.ipify.org?format=json"
      let ip ← data.getJD "ip" (Json.str "Unknown")
      pure ("IP Address", pyStr ip) : Except String (String × String)) with
  | Except.ok r => r
  | Except.error e => ("Error", "IP fetch failed: " ++ e)

/-- Cat fact (`main.py` lines 433-438). -/
def fetch_catfact (fj : String → Except String Json) : String × String :=
  match (do
      let data ← fj "https://catfact.ninja/fact"
      let fact ← data.getJD "fact" (Json.str "No fact.")
      pure ("Cat Fact", pyStr fact) : Except String (String × String)) with
  | Except.ok r => r
  | Except.error e => ("Error", "Cat fact fetch failed: " ++ e)

/-- Advice slip (`main.py` lines 441-447). -/
def fetch_advice (fj : String → Except String Json) : String × String :=
  match (do
      let data ← fj "https://api.adviceslip.com/advice"
      let slip ← data.getOr "slip" (Json.obj [])
      let advice ← slip.getJD "advice" (Json.str "No advice.")
      pure ("Advice", pyStr advice) : Except String (String × String)) with
  | Except.ok r => r
  | Except.error e => ("Error", "Advice fetch failed: " ++ e)

/-! ## Command loop (`main.py` lines 451-563)

One loop iteration is modelled as a pure step: given the current search term
and the raw input line, it yields the next term and the action the iteration
performs.  The action records which adapter is invoked and with which
argument; `action_output` renders the text the iteration prints, given the
network oracles. -/

/-- What one loop iteration does after reading a line. -/
inductive Action where
  | quit
  | blank
  | usage
  | wiki (term : String)
  | ddg (term : String)
  | xkcd (arg : Option Nat)
  | hn
  | quote
  | joke
  | weather (place : String)
  | define (word : String)
  | price (symbols : String)
  | stock (symbols : String)
  | time (zone : Option String)
  | ip
  | cat
  | advice
deriving DecidableEq

/-- Argument of the `xkcd` branch (`main.py` lines 483-487): a second
all-digit token is parsed, anything else means no argument. -/
def xkcd_arg (cmd : String) : Option Nat :=
  if ((pySplit cmd).length == 2) && pyIsDigit ((pySplit cmd).getD 1 "") then
    some (pyParseNat ((pySplit cmd).getD 1 ""))
  else none

/-- Argument of the `price` and `stock` branches (`main.py` lines 517-530):
the remainder after one whitespace split, else a fixed default. -/
def rest_arg (cmd dflt : String) : String :=
  if (pySplitMax1 cmd).length > 1 then (pySplitMax1 cmd).getD 1 "" else dflt

/-- Argument of the `time` branch (`main.py` lines 531-534). -/
def time_arg (cmd : String) : Option String :=
  if (pySplitMax1 cmd).length > 1 then some ((pySplitMax1 cmd).getD 1 "") else none

/-- Branch dispatch of the command loop on an already-stripped command
(`main.py` lines 466-557), in source order.  The result is the next value of
`current_term` and the action taken.  Only the `search` and `ddg` branches
change the term; `search` and `reload` fall through to the default
encyclopedia fetch. -/
def upb_dispatch (current_term cmd : String) : String × Action :=
  if pyStartsWith cmd "search " then
    (pyStrip (pyDropN cmd 7), Action.wiki (pyStrip (pyDropN cmd 7)))
  else if cmd == "" then (current_term, Action.blank)
  else if cmd == "reload" then (current_term, Action.wiki current_term)
  else if cmd == "quit" then (current_term, Action.quit)
  else if pyStartsWith cmd "ddg " then
    (pyStrip (pyDropN cmd 4), Action.ddg (pyStrip (pyDropN cmd 4)))
  else if pyStartsWith cmd "xkcd" then (current_term, Action.xkcd (xkcd_arg cmd))
  else if cmd == "hn" then (current_term, Action.hn)
  else if cmd == "quote" then (current_term, Action.quote)
  else if cmd == "joke" then (current_term, Action.joke)
  else if pyStartsWith cmd "weather " then
    (current_term, Action.weather (pyStrip (pyDropN cmd 8)))
  else if pyStartsWith cmd "define " then
    (current_term, Action.define (pyStrip (pyDropN cmd 7)))
  else if pyStartsWith cmd "price" then
    (current_term, Action.price (rest_arg cmd "btc eth"))
  else if pyStartsWith cmd "stock" then
    (current_term, Action.stock (rest_arg cmd "AAPL MSFT"))
  else if pyStartsWith cmd "time" then (current_term, Action.time (time_arg cmd))
  else if cmd == "ip" then (current_term, Action.ip)
  else if cmd == "cat" then (current_term, Action.cat)
  else if cmd == "advice" then (current_term, Action.advice)
  else (current_term, Action.usage)

/-- One loop iteration: the read line is stripped, then dispatched. -/
def upb_step (current_term line : String) : String × Action :=
  upb_dispatch current_term (pyStrip line)

/-- The guard disjunction of every non-default branch of the dispatch, in
source order: a command is unrecognized exactly when this is `false`. -/
def recognized_cmd (cmd : String) : Bool :=
  pyStartsWith cmd "search " || cmd == "" || cmd == "reload" || cmd == "quit" ||
  pyStartsWith cmd "ddg " || pyStartsWith cmd "xkcd" || cmd == "hn" ||
  cmd == "quote" || cmd == "joke" || pyStartsWith cmd "weather " ||
  pyStartsWith cmd "define " || pyStartsWith cmd "price" ||
  pyStartsWith cmd "stock" || pyStartsWith cmd "time" || cmd == "ip" ||
  cmd == "cat" || cmd == "advice"

/-- Initial value of `current_term` (`main.py` line 457). -/
def initial_term : String := "MicroPython"

/-- The usage string printed for unrecognized input (`main.py` lines 553-556). -/
def usage_text : String :=
  "Unknown command. Use: search <term>, ddg <query>, xkcd [num], hn, quote, joke, weather <place>, define <word>, price <symbols>, stock <symbols>, time [zone], ip, cat, advice, reload, or quit."

/-- The two HTTP oracles available to one iteration. -/
structure Net where
  json : String → Except String Json
  text : String → Except String String

/-- Stdout of printing one title/body pair
(`print("\n=== " + title + " ===")` then `print(text + "\n")`). -/
def pairBlock (p : String × String) : String :=
  "\n=== " ++ p.1 ++ " ===\n" ++ p.2 ++ "\n\n"

/-- Stdout produced by one action (`main.py` lines 475-563). -/
def action_output (net : Net) : Action → String
  | Action.quit => "Bye!\n"
  | Action.blank => ""
  | Action.usage => usage_text ++ "\n"
  | Action.wiki term =>
    "Fetching: " ++ term ++ "\n" ++ pairBlock (fetch_wiki_summary net.json term)
  | Action.ddg term =>
    "Searching DuckDuckGo: " ++ term ++ "\n" ++ pairBlock (fetch_ddg_result net.json term)
  | Action.xkcd arg => pairBlock (fetch_xkcd net.json arg)
  | Action.hn => "\n=== Hacker News Top ===\n" ++ fetch_hn_top net.json 5 ++ "\n\n"
  | Action.quote => pairBlock (fetch_quote net.json)
  | Action.joke => pairBlock (fetch_joke net.json)
  | Action.weather place => pairBlock (fetch_weather net.json place)
  | Action.define word => pairBlock (fetch_define net.json word)
  | Action.price symbols => pairBlock (fetch_prices net.json symbols)
  | Action.stock symbols => pairBlock (fetch_stocks net.json net.text symbols)
  | Action.time zone => pairBlock (fetch_time net.json zone)
  | Action.ip => pairBlock (fetch_ip net.json)
  | Action.cat => pairBlock (fetch_catfact net.json)
  | Action.advice => pairBlock (fetch_advice net.json)

/-! ## Concrete fixtures used by the claim theorems -/

/-- A well-formed comic payload. -/
def xkcdDemo : Json :=
  Json.obj [("num", Json.num 500), ("title", Json.str "Election"), ("alt", Json.str "alt text")]

/-- Six listed story identifiers. -/
def hnDemoIds : List Json :=
  [Json.num 10, Json.num 20, Json.num 30, Json.num 40, Json.num 50, Json.num 60]

/-- A well-formed story item payload. -/
def hnItemDemo (title url : String) : Json :=
  Json.obj [("title", Json.str title), ("url", Json.str url)]

/-- An oracle listing six identifiers where fetching item 30 raises. -/
def hnDemoFetch : String → Except String Json := fun u =>
  if u == hn_top_url then Except.ok (Json.arr hnDemoIds)
  else if u == hn_item_url (Json.num 10) then Except.ok (hnItemDemo "A" "ua")
  else if u == hn_item_url (Json.num 20) then Except.ok (hnItemDemo "B" "ub")
  else if u == hn_item_url (Json.num 30) then Except.error "boom"
  else if u == hn_item_url (Json.num 40) then Except.ok (hnItemDemo "D" "ud")
  else if u == hn_item_url (Json.num 50) then Except.ok (hnItemDemo "E" "ue")
  else Except.ok (hnItemDemo "F" "uf")

/-- A primary stock response whose result list is empty. -/
def stocksEmptyResp : Json :=
  Json.obj [("quoteResponse", Json.obj [("result", Json.arr [])])]

/-- A response with status 404. -/
def resp404 : HttpResponse :=
  ⟨some 404, Except.ok Json.null, Except.ok "", ""⟩

/-- A 200 response whose body fails to parse as JSON. -/
def respBadJson : HttpResponse :=
  ⟨some 200, Except.error "JSON parse failure", Except.ok "", ""⟩

/-! ## Helper lemmas -/

/-- A Bool known to be false is not true. -/
theorem bool_ne_true {b : Bool} (h : b = false) : ¬(b = true) := by
  simp [h]

/-- First component of a two-way branch whose arms both have first
component `t`. -/
theorem fst_ite (t : String) {c : Prop} [Decidable c] {p q : String × Action}
    (hp : p.1 = t) (hq : q.1 = t) : (if c then p else q).1 = t := by
  by_cases h : c
  · rw [if_pos h]; exact hp
  · rw [if_neg h]; exact hq

/-! ## Claims -/

/-- C1 (counterexample): on a simulated transport failure the Hacker News
adapter does not produce a Result Pair titled `"Error"`; it produces the
single string `"Error fetching Hacker News: boom"`, which is not `"Error"`. -/
theorem C1_counterexample :
    fetch_hn_top (fun _ => Except.error "boom") 5 = "Error fetching Hacker News: boom" ∧
    "Error fetching Hacker News: boom" ≠ "Error" :=
  ⟨rfl, by decide⟩

/-- C1 (amended): every pair-returning adapter (wiki summary, ddg, xkcd,
quote, joke, weather, define, price, stock, time, ip, cat fact, advice)
converts a simulated transport failure into a Result Pair whose title is
exactly `"Error"`; the hn adapter instead returns the single string
`"Error fetching Hacker News: " ++ description`. -/
theorem C1_amended_error_title (e query : String) (c : Option Nat) (z : Option String) :
    (fetch_wiki_summary (fun _ => Except.error e) query).1 = "Error" ∧
    (fetch_ddg_result (fun _ => Except.error e) query).1 = "Error" ∧
    (fetch_xkcd (fun _ => Except.error e) c).1 = "Error" ∧
    (fetch_quote (fun _ => Except.error e)).1 = "Error" ∧
    (fetch_joke (fun _ => Except.error e)).1 = "Error" ∧
    (fetch_weather (fun _ => Except.error e) query).1 = "Error" ∧
    (fetch_define (fun _ => Except.error e) query).1 = "Error" ∧
    (fetch_prices (fun _ => Except.error e) query).1 = "Error" ∧
    (fetch_stocks (fun _ => Except.error e) (fun _ => Except.error e) query).1 = "Error" ∧
    (fetch_time (fun _ => Except.error e) z).1 = "Error" ∧
    (fetch_ip (fun _ => Except.error e)).1 = "Error" ∧
    (fetch_catfact (fun _ => Except.error e)).1 = "Error" ∧
    (fetch_advice (fun _ => Except.error e)).1 = "Error" ∧
    fetch_hn_top (fun _ => Except.error e) 5 = "Error fetching Hacker News: " ++ e :=
  ⟨rfl, rfl, rfl, rfl, rfl, rfl, rfl, rfl, rfl, rfl, rfl, rfl, rfl, rfl⟩

/-- C2: `"search Rust"` sets the term to `"Rust"` and falls through to the
default encyclopedia fetch; a following `"reload"` fetches for `"Rust"`
again; the default-path output invokes `fetch_wiki_summary` on the term; the
term starts as the fixed default and is only ever changed by lines whose
stripped form starts with `"search "` or `"ddg "`. -/
theorem C2_search_reload_state (s : String) (net : Net) :
    initial_term = "MicroPython" ∧
    upb_step s "search Rust" = ("Rust", Action.wiki "Rust") ∧
    upb_step "Rust" "reload" = ("Rust", Action.wiki "Rust") ∧
    action_output net (Action.wiki "Rust") =
      "Fetching: Rust\n" ++ pairBlock (fetch_wiki_summary net.json "Rust") ∧
    (∀ (t line : String),
      (upb_step t line).1 = t ∨
        pyStartsWith (pyStrip line) "search " = true ∨
        pyStartsWith (pyStrip line) "ddg " = true) := by
  refine ⟨rfl, rfl, rfl, rfl, ?_⟩
  intro t line
  by_cases h1 : pyStartsWith (pyStrip line) "search " = true
  · exact Or.inr (Or.inl h1)
  by_cases h5 : pyStartsWith (pyStrip line) "ddg " = true
  · exact Or.inr (Or.inr h5)
  left
  unfold upb_step upb_dispatch
  rw [if_neg h1]
  refine fst_ite t rfl (fst_ite t rfl (fst_ite t rfl ?_))
  rw [if_neg h5]
  exact fst_ite t rfl (fst_ite t rfl (fst_ite t rfl (fst_ite t rfl (fst_ite t rfl
    (fst_ite t rfl (fst_ite t rfl (fst_ite t rfl (fst_ite t rfl (fst_ite t rfl
    (fst_ite t rfl (fst_ite t rfl rfl)))))))))))

/-- C3: a primary fetch that raises, or a primary response whose result list
is empty, makes `fetch_stocks` return the CSV fallback result; a CSV line is
only rendered when it has at least 8 comma-separated fields and a close field
that is not `"N/D"` (in particular a 6-field line and an `"N/D"` line are
skipped). -/
theorem C3_stocks_fallback_and_csv :
    (∀ (ft : String → Except String String) (symbols e : String),
      fetch_stocks (fun _ => Except.error e) ft symbols =
        stocks_fallback ft (stocks_param symbols)) ∧
    (∀ (ft : String → Except String String) (symbols : String),
      fetch_stocks (fun _ => Except.ok stocksEmptyResp) ft symbols =
        stocks_fallback ft (stocks_param symbols)) ∧
    (∀ line : String,
      stooq_parse_line line = none ∨
        (8 ≤ (stooq_parts line).length ∧ (stooq_parts line).getD 6 "" ≠ "N/D")) ∧
    stooq_parse_line "AAPL,2024-01-02,10:00,1,2,3" = none ∧
    stooq_parse_line "AAPL,2024-01-02,10:00,1,2,3,N/D,100" = none := by
  refine ⟨fun ft symbols e => rfl, fun ft symbols => rfl, ?_, rfl, rfl⟩
  intro line
  unfold stooq_parse_line
  split_ifs with h1 h2 h3
  · exact Or.inl rfl
  · exact Or.inl rfl
  · exact Or.inl rfl
  · refine Or.inr ⟨by omega, ?_⟩
    simp only [Bool.or_eq_true, beq_iff_eq, not_or] at h3
    exact h3.1.1

/-- C4: the news-listing adapter slices the first `n` listed identifiers,
fetches each item, skips the ones whose fetch raises, and joins the surviving
bullet entries with blank lines in the original order; when nothing survives
(or nothing is listed) it yields the fixed `"No stories."` string.  With six
listed identifiers, a default slice of 5 and item 30 failing, the output is
the four surviving entries joined in order. -/
theorem C4_hn_listing :
    fetch_hn_top hnDemoFetch 5 = "- A\n  ua\n\n- B\n  ub\n\n- D\n  ud\n\n- E\n  ue" ∧
    fetch_hn_top (fun u => if u == hn_top_url then Except.ok (Json.arr [])
      else Except.error "x") 5 = "No stories." ∧
    fetch_hn_top (fun u => if u == hn_top_url then
      Except.ok (Json.arr [Json.num 1, Json.num 2]) else Except.error "x") 5 =
      "No stories." ∧
    (∀ (fj : String → Except String Json) (ids : List Json) (n : Nat),
      fj hn_top_url = Except.ok (Json.arr ids) →
      fetch_hn_top fj n = hn_join ((ids.take n).filterMap (hn_item_line fj))) := by
  refine ⟨rfl, rfl, rfl, ?_⟩
  intro fj ids n h
  unfold fetch_hn_top
  rw [h]
  rfl

/-- C4 (witness): the general slicing/skipping/joining equation applied to
the concrete six-identifier oracle. -/
theorem C4_hn_listing_witness :
    fetch_hn_top hnDemoFetch 5 =
      hn_join ((hnDemoIds.take 5).filterMap (hn_item_line hnDemoFetch)) :=
  C4_hn_listing.2.2.2 hnDemoFetch hnDemoIds 5 rfl

/-- C5: the query encoder maps `"foo bar"` to `"foo+bar"` and `"a&b"` to
`"a%26b"` (letters preserved, `&` percent-escaped). -/
theorem C5_urlencode_examples :
    _urlencode_plus "foo bar" = "foo+bar" ∧ _urlencode_plus "a&b" = "a%26b" :=
  ⟨rfl, rfl⟩

/-- C6: the query encoder is deterministic, escapes `%` to `"%25"`, and is
not idempotent: re-encoding the encoding of `"a&b"` changes it. -/
theorem C6_deterministic_not_idempotent :
    (∀ s t : String, s = t → _urlencode_plus s = _urlencode_plus t) ∧
    _urlencode_plus "%" = "%25" ∧
    _urlencode_plus (_urlencode_plus "a&b") ≠ _urlencode_plus "a&b" :=
  ⟨fun _ _ h => congrArg _urlencode_plus h, rfl, by decide⟩

/-- C6 (witness): determinism applied at the concrete input `"a&b"`. -/
theorem C6_witness : _urlencode_plus "a&b" = _urlencode_plus "a&b" :=
  C6_deterministic_not_idempotent.1 "a&b" "a&b" rfl

/-- C7: both fetch helpers surface a transport failure unchanged, turn any
status of at least 400 into the single generic `"HTTP <code> for URL: <url>"`
failure regardless of the exact code, and the JSON helper surfaces a body
parse failure the same way (as an `Except.error`). -/
theorem C7_http_failure_modes :
    (∀ (url e : String),
      _http_get_json (fun _ => Except.error e) url = Except.error e) ∧
    (∀ (url : String) (r : HttpResponse), 400 ≤ http_status r →
      _http_get_json (fun _ => Except.ok r) url =
        Except.error ("HTTP " ++ toString (http_status r) ++ " for URL: " ++ url)) ∧
    (∀ (url e : String) (r : HttpResponse), http_status r < 400 →
      r.jsonBody = Except.error e →
      _http_get_json (fun _ => Except.ok r) url = Except.error e) ∧
    (∀ (url e : String),
      _http_get_text (fun _ => Except.error e) url = Except.error e) ∧
    (∀ (url : String) (r : HttpResponse), 400 ≤ http_status r →
      _http_get_text (fun _ => Except.ok r) url =
        Except.error ("HTTP " ++ toString (http_status r) ++ " for URL: " ++ url)) := by
  refine ⟨fun url e => rfl, ?_, ?_, fun url e => rfl, ?_⟩
  · intro url r h
    show (if http_status r ≠ 0 ∧ 400 ≤ http_status r then _ else _) = _
    rw [if_pos ⟨by omega, h⟩]
  · intro url e r hlt hj
    show (if http_status r ≠ 0 ∧ 400 ≤ http_status r then _ else _) = _
    rw [if_neg (fun hc => absurd hc.2 (by omega))]
    exact hj
  · intro url r h
    show (if http_status r ≠ 0 ∧ 400 ≤ http_status r then _ else _) = _
    rw [if_pos ⟨by omega, h⟩]

/-- C7 (witness): the status-404 and parse-failure cases at concrete
responses. -/
theorem C7_witness :
    _http_get_json (fun _ => Except.ok resp404) "u" =
      Except.error ("HTTP " ++ toString (http_status resp404) ++ " for URL: " ++ "u") ∧
    _http_get_json (fun _ => Except.ok respBadJson) "u" =
      Except.error "JSON parse failure" ∧
    _http_get_text (fun _ => Except.ok resp404) "u" =
      Except.error ("HTTP " ++ toString (http_status resp404) ++ " for URL: " ++ "u") :=
  ⟨C7_http_failure_modes.2.1 "u" resp404 (by decide),
   C7_http_failure_modes.2.2.1 "u" "JSON parse failure" respBadJson (by decide) rfl,
   C7_http_failure_modes.2.2.2.2 "u" resp404 (by decide)⟩

/-- C8: `"xkcd 500"` dispatches to the comic adapter with argument 500, whose
URL is the numbered endpoint containing `/500/info.0.json`; bare `"xkcd"`
dispatches with no argument, selecting the latest-comic endpoint; a fetched
comic is titled `#<num> - <title>`. -/
theorem C8_xkcd_routing (s : String) (net : Net) :
    upb_step s "xkcd 500" = (s, Action.xkcd (some 500)) ∧
    upb_step s "xkcd" = (s, Action.xkcd none) ∧
    xkcd_url (some 500) = "https://xkcd.com/500/info.0.json" ∧
    xkcd_url none = "https://xkcd.com/info.0.json" ∧
    action_output net (Action.xkcd (some 500)) =
      pairBlock (fetch_xkcd net.json (some 500)) ∧
    fetch_xkcd (fun _ => Except.ok xkcdDemo) (some 500) = ("#500 - Election", "alt text") :=
  ⟨rfl, rfl, rfl, rfl, rfl, rfl⟩

/-- C9: a stripped line matching none of the branch guards leaves the term
unchanged, dispatches to the usage action, and that action prints exactly the
fixed usage string (no fetch). -/
theorem C9_unrecognized (s line : String) (net : Net)
    (h : recognized_cmd (pyStrip line) = false) :
    upb_step s line = (s, Action.usage) ∧
    action_output net Action.usage = usage_text ++ "\n" := by
  refine ⟨?_, rfl⟩
  simp only [recognized_cmd, Bool.or_eq_false_iff] at h
  obtain ⟨⟨⟨⟨⟨⟨⟨⟨⟨⟨⟨⟨⟨⟨⟨⟨hs, hb⟩, hr⟩, hq⟩, hd⟩, hx⟩, hh⟩, hqo⟩, hj⟩, hw⟩,
    hdf⟩, hp⟩, hst⟩, ht⟩, hip⟩, hc⟩, ha⟩ := h
  unfold upb_step upb_dispatch
  rw [if_neg (bool_ne_true hs), if_neg (bool_ne_true hb), if_neg (bool_ne_true hr),
    if_neg (bool_ne_true hq), if_neg (bool_ne_true hd), if_neg (bool_ne_true hx),
    if_neg (bool_ne_true hh), if_neg (bool_ne_true hqo), if_neg (bool_ne_true hj),
    if_neg (bool_ne_true hw), if_neg (bool_ne_true hdf), if_neg (bool_ne_true hp),
    if_neg (bool_ne_true hst), if_neg (bool_ne_true ht), if_neg (bool_ne_true hip),
    if_neg (bool_ne_true hc), if_neg (bool_ne_true ha)]

/-- C9 (witness): the unrecognized-input theorem at the concrete line
`"foobar"`. -/
theorem C9_witness :
    recognized_cmd (pyStrip "foobar") = false ∧
    upb_step "MicroPython" "foobar" = ("MicroPython", Action.usage) :=
  ⟨rfl, (C9_unrecognized "MicroPython" "foobar"
    ⟨fun _ => Except.error "e", fun _ => Except.error "e"⟩ rfl).1⟩

/-- C10: `"xkcd 0"` passes the digit check and dispatches with argument 0,
but the adapter tests the number for truthiness, so comic 0 selects the
latest-comic endpoint, the same URL as no argument at all. -/
theorem C10_xkcd_zero (s : String) :
    upb_step s "xkcd 0" = (s, Action.xkcd (some 0)) ∧
    xkcd_url (some 0) = "https://xkcd.com/info.0.json" ∧
    xkcd_url (some 0) = xkcd_url none :=
  ⟨rfl, rfl, rfl⟩

end UPB
